import Mathlib

/-!
Shallow embedding of `generate_calendar.py` (repository `calendario-financiero`).

Modelling conventions:
- Python floats are modelled as exact rationals `ℚ`; Python `round(x, n)` and
  fixed-point string formatting round half to even, modelled by `roundHalfEven`.
- Calendar dates are modelled as integers (a day number); `date.isoformat()` is
  modelled by the injective decimal rendering `toString`.
- External collaborators (the yfinance ticker object, the FX HTTP endpoint,
  `dateutil.parser.parse`, `datetime.fromtimestamp`) are parameters of the
  embedding: arbitrary functions producing the data the library call would
  return, with `Except`/`Option` marking calls that may raise.
-/

namespace GenCal

/-- Calendar date, as an integer day number (the source uses `datetime.date`;
only the order and equality of dates matter to the script). -/
abbrev Date := ℤ

/-- Rounding half to even of a rational to an integer: the rounding mode of
Python `round` and of fixed-point formatting, on the exact-rational model. -/
def roundHalfEven (q : ℚ) : ℤ :=
  if q - Rat.floor q < 1/2 then Rat.floor q
  else if q - Rat.floor q = 1/2 then
    (if Rat.floor q % 2 = 0 then Rat.floor q else Rat.floor q + 1)
  else Rat.floor q + 1

/-- Python `round(x, 6)` on the exact-rational model. -/
def round6 (q : ℚ) : ℚ := (roundHalfEven (q * 1000000) : ℚ) / 1000000

/-- Constant `SPANISH_RATE = 0.19` (domestic dividend tax rate). -/
def SPANISH_RATE : ℚ := 19/100

/-- Constant `DEFAULT_FOREIGN_WITHHOLDING = 0.15`. -/
def DEFAULT_FOREIGN_WITHHOLDING : ℚ := 15/100

/-- Table `FOREIGN_WITHHOLDING` (withholding rate by country code). -/
def FOREIGN_WITHHOLDING : List (String × ℚ) :=
  [("ES", 19/100), ("US", 30/100), ("GB", 0), ("FR", 128/1000),
   ("BR", 15/100), ("SE", 30/100)]

/-- Table `MARKET_CURRENCY` (currency by market code). -/
def MARKET_CURRENCY : List (String × String) :=
  [("BME", "EUR"), ("EPA", "EUR"), ("LON", "GBP"), ("STO", "SEK"),
   ("NASDAQ", "USD"), ("NYSE", "USD")]

/-- Constant `EUR = "EUR"`. -/
def EUR : String := "EUR"

/-- Result dictionary of `compute_net`: four fields, each passed through
`round(_, 6)` by the source. -/
structure TaxBreakdown where
  gross_total : ℚ
  withholding_foreign : ℚ
  spanish_tax_to_pay : ℚ
  net_total : ℚ
deriving Repr, DecidableEq

/-- Local `withholding_foreign = gross_total * rate_foreign` of `compute_net`. -/
def withholding_foreign (gross_total rate_foreign : ℚ) : ℚ :=
  gross_total * rate_foreign

/-- Local `spanish_theoretical = gross_total * spanish_rate` of `compute_net`. -/
def spanish_theoretical (gross_total spanish_rate : ℚ) : ℚ :=
  gross_total * spanish_rate

/-- Local `spanish_to_pay = max(0.0, spanish_theoretical - withholding_foreign)`
of `compute_net`. -/
def spanish_to_pay (gross_total rate_foreign spanish_rate : ℚ) : ℚ :=
  max 0 (spanish_theoretical gross_total spanish_rate
          - withholding_foreign gross_total rate_foreign)

/-- Local `net_total = gross_total - withholding_foreign - spanish_to_pay`
of `compute_net`. -/
def net_total (gross_total rate_foreign spanish_rate : ℚ) : ℚ :=
  gross_total - withholding_foreign gross_total rate_foreign
    - spanish_to_pay gross_total rate_foreign spanish_rate

/-- Function `compute_net(gross_total, rate_foreign, spanish_rate)`
(lines 78-89 of the source): foreign withholding plus the Spanish top-up,
each output field rounded to 6 decimal places. -/
def compute_net (gross_total rate_foreign spanish_rate : ℚ) : TaxBreakdown :=
  { gross_total := round6 gross_total
    withholding_foreign := round6 (withholding_foreign gross_total rate_foreign)
    spanish_tax_to_pay := round6 (spanish_to_pay gross_total rate_foreign spanish_rate)
    net_total := round6 (net_total gross_total rate_foreign spanish_rate) }

/-! ### Date normalisation (`safe_parse_date`, lines 91-104) -/

/-- External date collaborators of `safe_parse_date`: `datetime.fromtimestamp`
(which may raise on out-of-range values, hence `Option`) and
`dateutil.parser.parse` composed with `.date()` (parse failure is `none`). -/
structure DateEnv where
  fromtimestamp : ℚ → Option Date
  parseStr : String → Option Date

/-- The heterogeneous inputs `safe_parse_date` distinguishes, one constructor
per branch of the source: Python `None`; a float NaN; an `int`/`float`; an
object with `to_pydatetime` (a pandas timestamp, carrying a date); a value
`pd.isna` accepts (for example `NaT`); anything else, handled as `str(x)`. -/
inductive PyVal where
  | noneVal
  | nanVal
  | numVal (x : ℚ)
  | timestampVal (d : Date)
  | naVal
  | strVal (s : String)
deriving Repr, DecidableEq

/-- Function `safe_parse_date(x)` (lines 91-104): returns a date or `none`;
every failing library call is inside its `try`, so no input raises. -/
def safe_parse_date (env : DateEnv) : PyVal → Option Date
  | .noneVal => none
  | .nanVal => none
  | .numVal x => env.fromtimestamp x
  | .timestampVal d => some d
  | .naVal => none
  | .strVal s => env.parseStr s

/-! ### FX lookup (`get_fx_rate`, lines 56-75) -/

/-- Response of the FX collaborator `open.er-api.com`: `exc` is any raised
error (network, bad status, bad json); otherwise the parsed body's
`result` field and `rates` mapping. -/
inductive FxResponse where
  | exc
  | resp (result : Option String) (rates : List (String × ℚ))

/-- Function `get_fx_rate(base_currency, target_currency)` (lines 56-75).
The second component of the result records whether the HTTP collaborator was
invoked (the source's `requests.get`). A falsy `base_currency` (modelled by
the empty string) is replaced by `"EUR"` before the comparison. -/
def get_fx_rate (fetch : String → FxResponse)
    (base_currency target_currency : String) : ℚ × Bool :=
  let base := (if base_currency = "" then "EUR" else base_currency).toUpper
  let target := target_currency.toUpper
  if base = target then (1, false)
  else
    match fetch base with
    | .exc => (1, true)
    | .resp result rates =>
      if result = some "success" then
        match rates.lookup target with
        | some r => (r, true)
        | none => (1, true)
      else (1, true)

/-! ### Ticker fetch (`fetch_info_for_ticker`, lines 107-220) -/

/-- The `lastDividendValue` entry of `tk.info`: absent (Python `dict.get`
default `0.0` applies), present but `None` (so that `None > 0` raises), or a
number. -/
inductive LastDiv where
  | missing
  | null
  | val (q : ℚ)
deriving Repr, DecidableEq

/-- The fields of `tk.info` the source reads. -/
structure InfoDict where
  shortName : Option String
  longName : Option String
  lastDividendValue : LastDiv
deriving Repr, DecidableEq

/-- The shapes `tk.calendar` is observed to take (lines 137-150): `None`, a
dict, a DataFrame (its index labels paired with the already-extracted first
value of each row, collapsing the source's `ed[0] if isinstance(ed, (list,
pd.Series)) else ed`), or a non-tabular scalar such as a float NaN. -/
inductive CalShape where
  | noneVal
  | dict (entries : List (String × PyVal))
  | frame (entries : List (String × PyVal))
  | scalar
deriving Repr, DecidableEq

/-- The shapes of `tk.actions` (lines 205-211): `None`, a frame without a
`Dividends` column, or rows of (index date, `Dividends` value). -/
inductive ActionsShape where
  | noneVal
  | noDividendsColumn
  | rows (entries : List (PyVal × ℚ))
deriving Repr, DecidableEq

/-- One ticker's answers from the yfinance collaborator; `Except` marks a
property access that raises, caught by the corresponding `try` block.
`earnings_dates` is `None`, or the index dates of the frame (`[]` when the
frame is empty, which the source skips — same contribution). -/
structure YfData where
  info : Except String InfoDict
  calendar : Except String CalShape
  earnings_dates : Except String (Option (List PyVal))
  dividends : Except String (List (PyVal × ℚ))
  actions : Except String ActionsShape

/-- The `out` dictionary `fetch_info_for_ticker` returns (lines 116-121). -/
structure TickerInfo where
  shortName : Option String
  dividends_history : List (Date × ℚ)
  earnings_dates : List Date
  ex_dividend_dates : List Date
deriving Repr, DecidableEq

/-- Python `a or b` on two optional strings (`""` and `None` are falsy). -/
def pyOrOpt (a b : Option String) : Option String :=
  match a with
  | some s => if s = "" then b else some s
  | none => b

/-- Python `a or b` where `b` is a string (`""` and `None` are falsy). -/
def pyOr (a : Option String) (b : String) : String :=
  match a with
  | some s => if s = "" then b else s
  | none => b

/-- Python `sorted(list(set(l)))` on dates: duplicates removed, sorted
ascending (the arbitrary set iteration order is canonicalised by keeping
first occurrences, which the sort makes irrelevant). -/
def sorted_set (l : List Date) : List Date :=
  (l.dedup).insertionSort (fun a b => a ≤ b)

/-- Python `sorted(list(set(l)), key=lambda x: x[0])` on (date, amount)
pairs: duplicate pairs removed, sorted ascending by date (stable). -/
def sorted_set_by_date (l : List (Date × ℚ)) : List (Date × ℚ) :=
  (l.dedup).insertionSort (fun a b => a.1 ≤ b.1)

/-- Value of the local `last_div_amount` after section 1 of
`fetch_info_for_ticker` (lines 123-131): `0.0` when `tk.info` raised or the
key is absent; `none` models Python `None` (on which `> 0` raises). -/
def last_div_amount (yf : YfData) : Option ℚ :=
  match yf.info with
  | .error _ => some 0
  | .ok i =>
    match i.lastDividendValue with
    | .missing => some 0
    | .null => none
    | .val q => some q

/-- Lines 153-175: the contributions of a non-empty calendar table with index
`entries`: next earnings date, next ex-dividend date, and the (pay date,
`last_div_amount`) pair — recorded only when the date parses and the amount
is a number strictly greater than zero (`None > 0` raises `TypeError`, caught
by the section's handler after the first two appends already happened). -/
def calendar_entries (env : DateEnv) (entries : List (String × PyVal))
    (last_div : Option ℚ) : List Date × List Date × List (Date × ℚ) :=
  if entries = [] then ([], [], [])
  else
    let earn := match entries.lookup "Earnings Date" with
      | some v => match safe_parse_date env v with | some d => [d] | none => []
      | none => []
    let exd := match entries.lookup "Ex-Dividend Date" with
      | some v => match safe_parse_date env v with | some d => [d] | none => []
      | none => []
    let pay := match entries.lookup "Dividend Date" with
      | some v =>
        match safe_parse_date env v, last_div with
        | some d, some amt => if 0 < amt then [(d, amt)] else []
        | some _, none => []
        | none, _ => []
      | none => []
    (earn, exd, pay)

/-- Section 2 of `fetch_info_for_ticker` (lines 133-178): `tk.calendar` by
shape. `None`, a non-DataFrame scalar and an empty dict raise (caught:
nothing contributed); a non-empty dict is converted to a frame. -/
def calendar_section (env : DateEnv) (cal : Except String CalShape)
    (last_div : Option ℚ) : List Date × List Date × List (Date × ℚ) :=
  match cal with
  | .error _ => ([], [], [])
  | .ok .noneVal => ([], [], [])
  | .ok .scalar => ([], [], [])
  | .ok (.dict []) => ([], [], [])
  | .ok (.dict entries) => calendar_entries env entries last_div
  | .ok (.frame entries) => calendar_entries env entries last_div

/-- The `out['earnings_dates']` list right before the final cleanup (the
calendar's next earnings date, then `tk.earnings_dates` index parsed — the
historical list comprehension appends unparsed entries as `None`). -/
def collected_earnings (env : DateEnv) (yf : YfData) : List (Option Date) :=
  (calendar_section env yf.calendar (last_div_amount yf)).1.map some ++
    (match yf.earnings_dates with
     | .error _ => []
     | .ok none => []
     | .ok (some l) => l.map (safe_parse_date env))

/-- The `out['dividends_history']` list right before the final cleanup (the
calendar pay pair, then `tk.dividends` items whose date parses). -/
def collected_dividends (env : DateEnv) (yf : YfData) : List (Date × ℚ) :=
  (calendar_section env yf.calendar (last_div_amount yf)).2.2 ++
    (match yf.dividends with
     | .error _ => []
     | .ok pairs =>
       pairs.filterMap (fun p => (safe_parse_date env p.1).map (fun d => (d, p.2))))

/-- The `out['ex_dividend_dates']` list right before the final cleanup (the
calendar's next ex-dividend date, then the dates of `tk.actions` rows with a
positive `Dividends` value that parse). -/
def collected_ex_dividends (env : DateEnv) (yf : YfData) : List Date :=
  (calendar_section env yf.calendar (last_div_amount yf)).2.1 ++
    (match yf.actions with
     | .error _ => []
     | .ok .noneVal => []
     | .ok .noDividendsColumn => []
     | .ok (.rows rs) =>
       (rs.filter (fun p => decide (0 < p.2))).filterMap
         (fun p => safe_parse_date env p.1))

/-- Function `fetch_info_for_ticker(ticker)` (lines 107-220) as a function of
the collaborator's data: collect from the four sources, then the final
cleanup of lines 215-218 (drop `None`, dedup, sort). -/
def fetch_info_for_ticker (env : DateEnv) (yf : YfData) : TickerInfo :=
  { shortName :=
      match yf.info with
      | .error _ => none
      | .ok i => pyOrOpt i.shortName i.longName
    earnings_dates := sorted_set ((collected_earnings env yf).filterMap id)
    ex_dividend_dates := sorted_set (collected_ex_dividends env yf)
    dividends_history := sorted_set_by_date (collected_dividends env yf) }

/-! ### Event building (`build_events_from_holdings`, lines 223-305) -/

/-- One row of the holdings CSV after line 225 coerced `cantidad` to an
integer. A `none` field models a NaN cell (`dtype=str` keeps missing values
as float NaN, and `.strip()` on it raises `AttributeError`); a column absent
from the file is modelled as `some ""` for the `row.get(..., '')` columns. -/
structure Row where
  ticker : Option String
  cantidad : ℤ
  country : Option String
  name : Option String
  market : Option String
deriving Repr, DecidableEq

/-- An element of the `events` list (a Python dict with keys `date`,
`summary`, `description`, `color`, `ticker`). -/
structure RawEvent where
  date : Option Date
  summary : String
  description : String
  color : String
  ticker : String
deriving Repr, DecidableEq

/-- Zero-padding of a digit string to width `w` (fraction part of fixed-point
formatting). -/
def padZeros (s : String) (w : ℕ) : String :=
  String.mk (List.replicate (w - s.length) '0') ++ s

/-- Python fixed-point formatting `format(q, '.<prec>f')` on the exact
rational model (round half to even, as CPython does). -/
def fmtFixed (prec : ℕ) (q : ℚ) : String :=
  let m := roundHalfEven (q * (10 : ℚ) ^ prec)
  let sign := if m < 0 then "-" else ""
  let n := m.natAbs
  if prec = 0 then sign ++ toString n
  else sign ++ toString (n / 10 ^ prec) ++ "." ++ padZeros (toString (n % 10 ^ prec)) prec

/-- The body of the per-row `try` (lines 229-300). First component: the value
the loop variable `ticker` holds after this iteration if line 230 ran (`none`
when `row['ticker'].strip()` itself raised, leaving the variable untouched);
second: the events built, or the caught exception. -/
def process_holding (env : DateEnv) (yfFetch : String → Except String YfData)
    (fxFetch : String → FxResponse) (row : Row) :
    Option String × Except String (List RawEvent) :=
  match row.ticker with
  | none => (none, .error "AttributeError")
  | some t0 =>
    let ticker := t0.trim
    if ticker = "" then (some ticker, .ok [])
    else
      match row.country with
      | none => (some ticker, .error "AttributeError")
      | some c0 =>
        let country := c0.trim.toUpper
        let cantidad := row.cantidad
        let name := pyOr row.name ticker
        match row.market with
        | none => (some ticker, .error "AttributeError")
        | some m0 =>
          let market := m0.trim.toUpper
          if cantidad = 0 then (some ticker, .ok [])
          else
            match yfFetch ticker with
            | .error e => (some ticker, .error e)
            | .ok data =>
              let info := fetch_info_for_ticker env data
              let company_name := pyOr info.shortName name
              let currency := (MARKET_CURRENCY.lookup market).getD "USD"
              let scale : ℚ := if market = "LON" then 1/100 else 1
              let fx := (get_fx_rate fxFetch currency EUR).1
              let rate_foreign :=
                (FOREIGN_WITHHOLDING.lookup country).getD DEFAULT_FOREIGN_WITHHOLDING
              let ex_events := info.ex_dividend_dates.map (fun ex_date =>
                { date := some ex_date
                  summary := "📅Ex-Div – " ++ company_name
                  description := company_name ++ " (" ++ ticker ++
                    ")\nFecha Ex-Dividendo (corte): " ++ toString ex_date
                  color := "orange"
                  ticker := ticker })
              let div_events :=
                (info.dividends_history.filter (fun p => decide (0 < p.2))).map (fun p =>
                  let gross_local := p.2 * (cantidad : ℚ) * scale
                  let gross_eur := gross_local * fx
                  let calcd := compute_net gross_eur rate_foreign SPANISH_RATE
                  { date := some p.1
                    summary := "💵Div (" ++ fmtFixed 2 calcd.net_total ++ "€) – " ++
                      company_name
                    description := company_name ++ " (" ++ ticker ++
                      ")\nFecha de PAGO: " ++ toString p.1 ++
                      "\nCantidad: " ++ toString cantidad ++ " acciones" ++
                      "\nDiv x Acc: " ++ fmtFixed 4 (p.2 * scale) ++ " " ++ currency ++
                      "\n--- Cálculo en EUR (FX: " ++ fmtFixed 4 fx ++ ") ---" ++
                      "\nNETO: " ++ fmtFixed 2 calcd.net_total ++ " EUR" ++
                      "\nBruto: " ++ fmtFixed 2 calcd.gross_total ++ " EUR" ++
                      "\nRet. Origen (" ++ toString (rate_foreign * 100) ++ "%): -" ++
                      fmtFixed 2 calcd.withholding_foreign ++ " EUR" ++
                      "\nRet. España (dif): -" ++ fmtFixed 2 calcd.spanish_tax_to_pay ++
                      " EUR"
                    color := "green"
                    ticker := ticker })
              let earn_events := info.earnings_dates.map (fun earn_date =>
                { date := some earn_date
                  summary := "💰Result – " ++ company_name
                  description := company_name ++ " (" ++ ticker ++
                    ")\nFecha de resultados: " ++ toString earn_date
                  color := "blue"
                  ticker := ticker })
              (some ticker, .ok (ex_events ++ div_events ++ earn_events))

/-- The `for _, row in df.iterrows()` loop of lines 228-303, carrying the
loop variable `ticker` across iterations (Python scoping): on an exception
the handler prints `f"[ERROR] {ticker}: {e}"`, which raises `NameError` and
aborts the whole call when `ticker` was never assigned. -/
def build_events_loop (env : DateEnv) (yfFetch : String → Except String YfData)
    (fxFetch : String → FxResponse) :
    Option String → List RawEvent → List Row → Except String (List RawEvent)
  | _, acc, [] => .ok acc
  | tickerVar, acc, row :: rest =>
    let step := process_holding env yfFetch fxFetch row
    let tickerVar' := match step.1 with
      | some t => some t
      | none => tickerVar
    match step.2 with
    | .ok evs => build_events_loop env yfFetch fxFetch tickerVar' (acc ++ evs) rest
    | .error _ =>
      match tickerVar' with
      | none => .error "NameError: name 'ticker' is not defined"
      | some _ => build_events_loop env yfFetch fxFetch tickerVar' acc rest

/-- Function `build_events_from_holdings(csv_path)` (lines 223-305), from the
parsed rows onward. -/
def build_events_from_holdings (env : DateEnv) (yfFetch : String → Except String YfData)
    (fxFetch : String → FxResponse) (rows : List Row) : Except String (List RawEvent) :=
  build_events_loop env yfFetch fxFetch none [] rows

/-! ### Calendar writing (`write_ics_file`, lines 308-347) -/

/-- The fields the source sets on each emitted `ics` event (lines 326-343);
`dtstart` is `e.begin` (start of the all-day event), `categories` the single
colour tag. -/
structure IcsEvent where
  name : String
  dtstart : Date
  description : String
  uid : String
  categories : String
deriving Repr, DecidableEq

/-- Python `date.isoformat()`, modelled injectively on day numbers. -/
def date_isoformat (d : Date) : String := toString d

/-- The UID f-string of line 340. -/
def event_uid (ticker event_type date_str : String) : String :=
  ticker ++ "-" ++ event_type ++ "-" ++ date_str ++ "@mi.calendario.financiero.v2"

/-- The window filter of lines 317-321: a `None` date is falsy, otherwise the
inclusive range check. -/
def in_window (start_date end_date : Date) (ev : RawEvent) : Bool :=
  match ev.date with
  | some d => decide (start_date ≤ d) && decide (d ≤ end_date)
  | none => false

/-- The `filtered_events` list of lines 317-321. -/
def filtered_events (events_list : List RawEvent) (start_date end_date : Date) :
    List RawEvent :=
  events_list.filter (in_window start_date end_date)

/-- Lines 326-343 for one event with a resolved date. -/
def make_ics_event (ev : RawEvent) (d : Date) : IcsEvent :=
  { name := ev.summary
    dtstart := d
    description := ev.description
    uid := event_uid ev.ticker ev.color (date_isoformat d)
    categories := ev.color }

/-- Function `write_ics_file(events_list, out_path, start_date, end_date)`
(lines 308-347), as the list of events it emits into the fresh file (the
redundant `if not ev["date"]: continue` of line 330 included). -/
def write_ics_file (events_list : List RawEvent) (start_date end_date : Date) :
    List IcsEvent :=
  (filtered_events events_list start_date end_date).filterMap (fun ev =>
    match ev.date with
    | none => none
    | some d => some (make_ics_event ev d))

/-! ### Concrete collaborator instances used by witnesses and counterexamples -/

/-- A date environment whose collaborators always fail to produce a date. -/
def trivDateEnv : DateEnv := ⟨fun _ => none, fun _ => none⟩

/-- A yfinance collaborator whose ticker constructor raises. -/
def trivYf : String → Except String YfData := fun _ => .error "HTTPError"

/-- An FX collaborator whose request raises. -/
def trivFx : String → FxResponse := fun _ => .exc

/-- An FX collaborator answering success with a rate of 2 for the empty
currency code. -/
def fx_success_blank : String → FxResponse :=
  fun _ => .resp (some "success") [("", 2)]

/-- A holdings row whose `ticker` cell is missing (float NaN under
`dtype=str`), so `row['ticker'].strip()` raises before the loop variable
`ticker` is ever assigned. -/
def bad_first_row : Row :=
  { ticker := none, cantidad := 1, country := some "US",
    name := some "", market := some "NASDAQ" }

/-- Ticker data whose forward-looking calendar carries one confirmed pay
date (day 100) and whose general info reports a last dividend of 1; the
three historical sources raise. -/
def calendarOnlyYf : YfData :=
  { info := .ok { shortName := none, longName := none, lastDividendValue := .val 1 }
    calendar := .ok (.frame [("Dividend Date", PyVal.timestampVal 100)])
    earnings_dates := .error "boom"
    dividends := .error "boom"
    actions := .error "boom" }

/-- Ticker data where the calendar and the historical actions both report
ex-dividend day 10 (overlap of the forward-looking and historical sources). -/
def overlapYf : YfData :=
  { info := .error "boom"
    calendar := .ok (.frame [("Ex-Dividend Date", PyVal.timestampVal 10)])
    earnings_dates := .error "boom"
    dividends := .error "boom"
    actions := .ok (.rows [(PyVal.timestampVal 10, 1)]) }

instance : IsTotal (Date × ℚ) (fun a b => a.1 ≤ b.1) :=
  ⟨fun a b => le_total a.1 b.1⟩

instance : IsTrans (Date × ℚ) (fun a b => a.1 ≤ b.1) :=
  ⟨fun _ _ _ h₁ h₂ => le_trans h₁ h₂⟩

/-! ## Helper lemmas -/

theorem ratFloor_intFloor (q : ℚ) : Rat.floor q = ⌊q⌋ := by
  rw [Rat.floor_def', Rat.floor_def]

theorem roundHalfEven_eq (q : ℚ) : roundHalfEven q =
    if q - ⌊q⌋ < 1/2 then ⌊q⌋
    else if q - ⌊q⌋ = 1/2 then (if ⌊q⌋ % 2 = 0 then ⌊q⌋ else ⌊q⌋ + 1)
    else ⌊q⌋ + 1 := by
  simp only [roundHalfEven, ratFloor_intFloor]

theorem roundHalfEven_bounds (q : ℚ) :
    ⌊q⌋ ≤ roundHalfEven q ∧ roundHalfEven q ≤ ⌊q⌋ + 1 := by
  rw [roundHalfEven_eq]
  split_ifs <;> omega

theorem roundHalfEven_mono {a b : ℚ} (h : a ≤ b) :
    roundHalfEven a ≤ roundHalfEven b := by
  rcases lt_or_le ⌊a⌋ ⌊b⌋ with hf | hf
  · have ha := (roundHalfEven_bounds a).2
    have hb := (roundHalfEven_bounds b).1
    omega
  · have hfe : ⌊a⌋ = ⌊b⌋ := le_antisymm (Int.floor_le_floor h) hf
    rw [roundHalfEven_eq, roundHalfEven_eq, ← hfe]
    have hab : a - ⌊a⌋ ≤ b - ⌊a⌋ := by linarith
    by_cases h1 : a - ⌊a⌋ < 1/2
    · rw [if_pos h1]
      split_ifs <;> omega
    · rw [if_neg h1]
      have hb1 : ¬ b - ⌊a⌋ < 1/2 := fun hc => h1 (by linarith)
      rw [if_neg hb1]
      by_cases h2 : a - ⌊a⌋ = 1/2
      · rw [if_pos h2]
        split_ifs <;> omega
      · have hx : 1/2 < a - ⌊a⌋ := lt_of_le_of_ne (not_lt.mp h1) (Ne.symm h2)
        have hy : 1/2 < b - ⌊a⌋ := lt_of_lt_of_le hx hab
        rw [if_neg h2, if_neg (ne_of_gt hy)]

theorem round6_mono {a b : ℚ} (h : a ≤ b) : round6 a ≤ round6 b := by
  unfold round6
  have h1 : roundHalfEven (a * 1000000) ≤ roundHalfEven (b * 1000000) :=
    roundHalfEven_mono (by linarith)
  have h2 : ((roundHalfEven (a * 1000000) : ℚ)) ≤ roundHalfEven (b * 1000000) := by
    exact_mod_cast h1
  exact div_le_div_of_nonneg_right h2 (by norm_num)

theorem round6_zero : round6 0 = 0 := by with_unfolding_all rfl

theorem round6_nonneg {q : ℚ} (h : 0 ≤ q) : 0 ≤ round6 q := by
  rw [← round6_zero]
  exact round6_mono h

/-! ## Claim theorems -/

/-- Claim C1, counterexample: at gross `1e-5`, foreign rate `0.23`, domestic
rate `0.66`, the four fields returned by `compute_net` (each rounded to six
decimal places) do not satisfy `net = gross - foreign_withholding -
domestic_topup`: the rounded fields give `3e-6` on the left and `4e-6` on
the right. -/
theorem compute_net_rounded_identity_cex :
    ¬ ((compute_net (1/100000) (23/100) (66/100)).net_total
        = 1/100000
          - (compute_net (1/100000) (23/100) (66/100)).withholding_foreign
          - (compute_net (1/100000) (23/100) (66/100)).spanish_tax_to_pay) := by
  with_unfolding_all decide

/-- Claim C1, amended: for gross `g ≥ 0` and rates in `[0, 1]`, the
pre-rounding values of `compute_net` satisfy `domestic_topup =
max(0, g*domestic - g*foreign)`, `net = g - foreign_withholding -
domestic_topup`, `domestic_topup ≥ 0` and `net ≤ g`; the four returned
fields are exactly these values rounded to 6 decimal places, and on the
rounded fields the two inequalities still hold (`spanish_tax_to_pay ≥ 0`,
`net_total ≤ gross_total`). The additive identity itself need not survive
the per-field rounding. -/
theorem compute_net_breakdown_props (g f d : ℚ) (hg : 0 ≤ g) (hf0 : 0 ≤ f)
    (hf1 : f ≤ 1) (hd0 : 0 ≤ d) (hd1 : d ≤ 1) :
    spanish_to_pay g f d = max 0 (g * d - g * f)
    ∧ net_total g f d = g - withholding_foreign g f - spanish_to_pay g f d
    ∧ 0 ≤ spanish_to_pay g f d
    ∧ net_total g f d ≤ g
    ∧ compute_net g f d =
        { gross_total := round6 g
          withholding_foreign := round6 (withholding_foreign g f)
          spanish_tax_to_pay := round6 (spanish_to_pay g f d)
          net_total := round6 (net_total g f d) }
    ∧ 0 ≤ (compute_net g f d).spanish_tax_to_pay
    ∧ (compute_net g f d).net_total ≤ (compute_net g f d).gross_total := by
  have hw : 0 ≤ withholding_foreign g f := mul_nonneg hg hf0
  have hs : 0 ≤ spanish_to_pay g f d := le_max_left 0 _
  have hnet : net_total g f d ≤ g := by
    unfold net_total
    linarith
  refine ⟨rfl, rfl, hs, hnet, rfl, ?_, ?_⟩
  · exact round6_nonneg hs
  · exact round6_mono hnet

/-- Claim C1, witness of the amended theorem at gross 55 EUR, foreign rate
0.30, domestic rate 0.19. -/
theorem compute_net_breakdown_props_witness :
    spanish_to_pay 55 (30/100) (19/100) = max 0 (55 * (19/100) - 55 * (30/100))
    ∧ net_total 55 (30/100) (19/100)
        = 55 - withholding_foreign 55 (30/100) - spanish_to_pay 55 (30/100) (19/100)
    ∧ 0 ≤ spanish_to_pay 55 (30/100) (19/100)
    ∧ net_total 55 (30/100) (19/100) ≤ 55
    ∧ compute_net 55 (30/100) (19/100) =
        { gross_total := round6 55
          withholding_foreign := round6 (withholding_foreign 55 (30/100))
          spanish_tax_to_pay := round6 (spanish_to_pay 55 (30/100) (19/100))
          net_total := round6 (net_total 55 (30/100) (19/100)) }
    ∧ 0 ≤ (compute_net 55 (30/100) (19/100)).spanish_tax_to_pay
    ∧ (compute_net 55 (30/100) (19/100)).net_total
        ≤ (compute_net 55 (30/100) (19/100)).gross_total :=
  compute_net_breakdown_props 55 (30/100) (19/100) (by norm_num) (by norm_num)
    (by norm_num) (by norm_num) (by norm_num)

/-- Claim C2: for any gross `g ≥ 0`, when the foreign rate is at least the
domestic rate the `spanish_tax_to_pay` field returned by `compute_net` is
exactly 0. -/
theorem compute_net_topup_zero (g f d : ℚ) (hg : 0 ≤ g) (hfd : d ≤ f) :
    (compute_net g f d).spanish_tax_to_pay = 0 := by
  have h : spanish_to_pay g f d = 0 := by
    unfold spanish_to_pay spanish_theoretical withholding_foreign
    have hm : g * d ≤ g * f := mul_le_mul_of_nonneg_left hfd hg
    exact max_eq_left (by linarith)
  show round6 (spanish_to_pay g f d) = 0
  rw [h, round6_zero]

/-- Claim C2, witness at gross 55, foreign 0.30, domestic 0.19. -/
theorem compute_net_topup_zero_witness :
    (compute_net 55 (30/100) (19/100)).spanish_tax_to_pay = 0 :=
  compute_net_topup_zero 55 (30/100) (19/100) (by norm_num) (by norm_num)

/-- Claim C10: for gross `g ≥ 0` and rates in `[0, 1]`, the pre-rounding net
of `compute_net` equals `g * (1 - max foreign domestic)` — it depends only
on the larger rate — and is non-negative; the returned `net_total` field is
that closed form rounded to 6 decimal places. -/
theorem net_total_closed_form (g f d : ℚ) (hg : 0 ≤ g) (hf0 : 0 ≤ f)
    (hf1 : f ≤ 1) (hd0 : 0 ≤ d) (hd1 : d ≤ 1) :
    net_total g f d = g * (1 - max f d)
    ∧ 0 ≤ net_total g f d
    ∧ (compute_net g f d).net_total = round6 (g * (1 - max f d)) := by
  have key : net_total g f d = g * (1 - max f d) := by
    unfold net_total spanish_to_pay spanish_theoretical withholding_foreign
    rcases le_total f d with h | h
    · rw [max_eq_right h, max_eq_right (by nlinarith : (0:ℚ) ≤ g * d - g * f)]
      ring
    · rw [max_eq_left h, max_eq_left (by nlinarith : g * d - g * f ≤ 0)]
      ring
  have hnn : 0 ≤ net_total g f d := by
    rw [key]
    exact mul_nonneg hg (sub_nonneg.mpr (max_le hf1 hd1))
  refine ⟨key, hnn, ?_⟩
  show round6 (net_total g f d) = round6 (g * (1 - max f d))
  rw [key]

/-- Claim C10, witness at gross 55, foreign 0.30, domestic 0.19. -/
theorem net_total_closed_form_witness :
    net_total 55 (30/100) (19/100) = 55 * (1 - max (30/100) (19/100))
    ∧ 0 ≤ net_total 55 (30/100) (19/100)
    ∧ (compute_net 55 (30/100) (19/100)).net_total
        = round6 (55 * (1 - max (30/100) (19/100))) :=
  net_total_closed_form 55 (30/100) (19/100) (by norm_num) (by norm_num)
    (by norm_num) (by norm_num) (by norm_num)

/-- Claim C5: `safe_parse_date` is total — every input shape yields an
optional date, never an error — and follows the stated policy: `None` and
float NaN give no value; a number is handed to the epoch converter (whose
own failure, caught by the `try`, gives no value); a date/time-like object
yields its date; a `pd.isna` value gives no value; anything else is parsed
as a free-form string, failure giving no value. -/
theorem safe_parse_date_policy (env : DateEnv) :
    safe_parse_date env PyVal.noneVal = none
    ∧ safe_parse_date env PyVal.nanVal = none
    ∧ (∀ x, safe_parse_date env (PyVal.numVal x) = env.fromtimestamp x)
    ∧ (∀ d, safe_parse_date env (PyVal.timestampVal d) = some d)
    ∧ safe_parse_date env PyVal.naVal = none
    ∧ (∀ s, safe_parse_date env (PyVal.strVal s) = env.parseStr s) :=
  ⟨rfl, rfl, fun _ => rfl, fun _ => rfl, rfl, fun _ => rfl⟩

/-- Claim C7, counterexample: for the empty currency code (falsy in Python,
so the base is replaced by `"EUR"` while the target stays empty),
`get_fx_rate("", "")` does invoke the collaborator, and with a collaborator
whose rates map the empty code to 2 it even returns 2, not 1.0. -/
theorem get_fx_rate_blank_code_cex :
    get_fx_rate fx_success_blank "" "" = (2, true)
    ∧ get_fx_rate fx_success_blank "" "" ≠ (1, false) := by
  constructor
  · with_unfolding_all rfl
  · with_unfolding_all decide

/-- Claim C7, amended: for every non-empty currency code — in fact for any
two non-empty codes equal up to case — `get_fx_rate` returns exactly 1.0
without invoking the FX collaborator. -/
theorem get_fx_rate_self (fetch : String → FxResponse) (base target : String)
    (hb : base ≠ "") (h : base.toUpper = target.toUpper) :
    get_fx_rate fetch base target = (1, false) := by
  simp [get_fx_rate, hb, h]

/-- Claim C7, witness: `get_fx_rate("usd", "USD")` with a failing
collaborator returns 1.0 without invoking it. -/
theorem get_fx_rate_self_witness :
    get_fx_rate trivFx "usd" "USD" = (1, false) :=
  get_fx_rate_self trivFx "usd" "USD" (by decide)
    (by with_unfolding_all decide)

theorem in_window_iff (s e : Date) (ev : RawEvent) :
    in_window s e ev = true ↔ ∃ d, ev.date = some d ∧ s ≤ d ∧ d ≤ e := by
  unfold in_window
  cases hd : ev.date with
  | none => simp
  | some d => simp

theorem mem_write_ics_iff (evs : List RawEvent) (s e : Date) (x : IcsEvent) :
    x ∈ write_ics_file evs s e ↔
      ∃ ev, ev ∈ evs ∧ ∃ d, ev.date = some d ∧ s ≤ d ∧ d ≤ e
        ∧ x = make_ics_event ev d := by
  unfold write_ics_file filtered_events
  rw [List.mem_filterMap]
  constructor
  · rintro ⟨ev, hmem, hx⟩
    rw [List.mem_filter] at hmem
    obtain ⟨hev, hw⟩ := hmem
    obtain ⟨d, hd, h1, h2⟩ := (in_window_iff s e ev).mp hw
    rw [hd] at hx
    exact ⟨ev, hev, d, hd, h1, h2, (Option.some.inj hx).symm⟩
  · rintro ⟨ev, hev, d, hd, h1, h2, rfl⟩
    refine ⟨ev, ?_, ?_⟩
    · rw [List.mem_filter]
      exact ⟨hev, (in_window_iff s e ev).mpr ⟨d, hd, h1, h2⟩⟩
    · rw [hd]

/-- Claim C3: every identifier `write_ics_file` emits is `event_uid` of the
event's (ticker, category colour, date) triple — a pure function of that
triple alone, so identical event lists yield identical identifiers — and any
two emitted events whose source events share the triple receive the same
identifier, whatever the runs' windows were. -/
theorem write_ics_file_uid_stable :
    (∀ (evs : List RawEvent) (s e : Date) (x : IcsEvent),
      x ∈ write_ics_file evs s e →
        ∃ ev, ev ∈ evs ∧ ∃ d, ev.date = some d
          ∧ x.uid = event_uid ev.ticker ev.color (date_isoformat d))
    ∧ (∀ (ev₁ ev₂ : RawEvent) (s₁ e₁ s₂ e₂ : Date) (x₁ x₂ : IcsEvent),
        x₁ ∈ write_ics_file [ev₁] s₁ e₁ → x₂ ∈ write_ics_file [ev₂] s₂ e₂ →
        ev₁.ticker = ev₂.ticker → ev₁.color = ev₂.color → ev₁.date = ev₂.date →
        x₁.uid = x₂.uid) := by
  have base : ∀ (evs : List RawEvent) (s e : Date) (x : IcsEvent),
      x ∈ write_ics_file evs s e →
        ∃ ev, ev ∈ evs ∧ ∃ d, ev.date = some d
          ∧ x.uid = event_uid ev.ticker ev.color (date_isoformat d) := by
    intro evs s e x hx
    obtain ⟨ev, hev, d, hd, _, _, rfl⟩ := (mem_write_ics_iff evs s e x).mp hx
    exact ⟨ev, hev, d, hd, rfl⟩
  refine ⟨base, ?_⟩
  intro ev₁ ev₂ s₁ e₁ s₂ e₂ x₁ x₂ h₁ h₂ ht hc hd
  obtain ⟨ev₁', hm₁, d₁, hd₁, hu₁⟩ := base [ev₁] s₁ e₁ x₁ h₁
  obtain ⟨ev₂', hm₂, d₂, hd₂, hu₂⟩ := base [ev₂] s₂ e₂ x₂ h₂
  rw [List.mem_singleton] at hm₁ hm₂
  subst hm₁
  subst hm₂
  rw [hd] at hd₁
  rw [hd₁] at hd₂
  rw [hu₁, hu₂, ht, hc, Option.some.inj hd₂]

/-- Claim C6: `write_ics_file` emits exactly the events whose resolved date
lies in the inclusive window `[start_date, end_date]` — dates equal to
either bound are kept, dates outside are not, and events with no resolved
date are dropped. -/
theorem write_ics_file_window :
    ∀ (evs : List RawEvent) (s e : Date) (x : IcsEvent),
      x ∈ write_ics_file evs s e ↔
        ∃ ev, ev ∈ evs ∧ ∃ d, ev.date = some d ∧ s ≤ d ∧ d ≤ e
          ∧ x = make_ics_event ev d :=
  fun evs s e x => mem_write_ics_iff evs s e x

theorem sorted_set_nodup (l : List Date) : (sorted_set l).Nodup :=
  (List.perm_insertionSort _ _).nodup_iff.mpr (List.nodup_dedup l)

theorem sorted_set_sorted_lt (l : List Date) : (sorted_set l).Sorted (· < ·) :=
  List.Sorted.lt_of_le (List.sorted_insertionSort _ _) (sorted_set_nodup l)

theorem sorted_set_mem {a : Date} {l : List Date} : a ∈ sorted_set l ↔ a ∈ l := by
  unfold sorted_set
  rw [(List.perm_insertionSort _ _).mem_iff, List.mem_dedup]

theorem sorted_set_by_date_nodup (l : List (Date × ℚ)) :
    (sorted_set_by_date l).Nodup :=
  (List.perm_insertionSort _ _).nodup_iff.mpr (List.nodup_dedup l)

theorem sorted_set_by_date_sorted (l : List (Date × ℚ)) :
    (sorted_set_by_date l).Sorted (fun a b => a.1 ≤ b.1) :=
  List.sorted_insertionSort _ _

theorem sorted_set_by_date_mem {p : Date × ℚ} {l : List (Date × ℚ)} :
    p ∈ sorted_set_by_date l ↔ p ∈ l := by
  unfold sorted_set_by_date
  rw [(List.perm_insertionSort _ _).mem_iff, List.mem_dedup]

/-- Claim C4: whatever the four sources contributed, the `TickerInfo`
returned by `fetch_info_for_ticker` has strictly increasing (hence
duplicate-free, ascending) earnings and ex-dividend date lists, and a
dividend list with no duplicate (date, amount) pair, sorted ascending by
date; a date collected from the sources (possibly several times, as when
two sources overlap) appears in the merged ex-dividend list exactly once. -/
theorem fetch_info_dedup_sorted (env : DateEnv) (yf : YfData) :
    ((fetch_info_for_ticker env yf).earnings_dates).Sorted (· < ·)
    ∧ ((fetch_info_for_ticker env yf).earnings_dates).Nodup
    ∧ ((fetch_info_for_ticker env yf).ex_dividend_dates).Sorted (· < ·)
    ∧ ((fetch_info_for_ticker env yf).ex_dividend_dates).Nodup
    ∧ ((fetch_info_for_ticker env yf).dividends_history).Nodup
    ∧ ((fetch_info_for_ticker env yf).dividends_history).Sorted (fun a b => a.1 ≤ b.1)
    ∧ (∀ dt : Date, dt ∈ collected_ex_dividends env yf →
        List.count dt (fetch_info_for_ticker env yf).ex_dividend_dates = 1) := by
  refine ⟨sorted_set_sorted_lt _, sorted_set_nodup _, sorted_set_sorted_lt _,
    sorted_set_nodup _, sorted_set_by_date_nodup _, sorted_set_by_date_sorted _, ?_⟩
  intro dt hdt
  exact List.count_eq_one_of_mem (sorted_set_nodup _) (sorted_set_mem.mpr hdt)

/-- The forward-looking calendar on both shapes that reach the table code. -/
theorem calendar_section_frame (env : DateEnv) (entries : List (String × PyVal))
    (l : Option ℚ) :
    calendar_section env (Except.ok (CalShape.frame entries)) l
      = calendar_entries env entries l := rfl

/-- Claim C9: when the forward-looking calendar supplies a `Dividend Date`
entry whose value parses to a date `d`, the pay contribution is the single
pair `(d, last_div_amount)` exactly when that amount is a number strictly
greater than 0; a `None` amount (whose `> 0` comparison raises, caught)
and a non-positive amount contribute no pair. A positive amount's pair
reaches the merged `dividends_history` of `fetch_info_for_ticker`. -/
theorem calendar_pay_pair_iff_positive (env : DateEnv)
    (entries : List (String × PyVal)) (last : Option ℚ) (v : PyVal) (d : Date)
    (hv : entries.lookup "Dividend Date" = some v)
    (hd : safe_parse_date env v = some d) :
    (∀ amt : ℚ, last = some amt →
      (calendar_entries env entries last).2.2 = if 0 < amt then [(d, amt)] else [])
    ∧ (last = none → (calendar_entries env entries last).2.2 = [])
    ∧ (∀ yf : YfData, yf.calendar = Except.ok (CalShape.frame entries) →
        ∀ amt : ℚ, last_div_amount yf = some amt → 0 < amt →
        (d, amt) ∈ (fetch_info_for_ticker env yf).dividends_history) := by
  have hne : entries ≠ [] := by
    intro h
    rw [h] at hv
    simp [List.lookup] at hv
  have pay_some : ∀ amt : ℚ, (calendar_entries env entries (some amt)).2.2
      = if 0 < amt then [(d, amt)] else [] := by
    intro amt
    unfold calendar_entries
    rw [if_neg hne]
    simp [hv, hd]
  have pay_none : (calendar_entries env entries none).2.2 = [] := by
    unfold calendar_entries
    rw [if_neg hne]
    simp [hv, hd]
  refine ⟨?_, ?_, ?_⟩
  · intro amt h
    rw [h]
    exact pay_some amt
  · intro h
    rw [h]
    exact pay_none
  · intro yf hcal amt hamt hpos
    have hmem : (d, amt) ∈ collected_dividends env yf := by
      unfold collected_dividends
      rw [List.mem_append]
      left
      rw [hcal, calendar_section_frame, hamt, pay_some amt, if_pos hpos]
      exact List.mem_singleton.mpr rfl
    exact sorted_set_by_date_mem.mpr hmem

/-- Claim C9, witness: calendar pay day 100 with last dividend 1 saved as
the pair (100, 1). -/
theorem calendar_pay_pair_iff_positive_witness :
    ((100 : Date), (1 : ℚ)) ∈ (fetch_info_for_ticker trivDateEnv calendarOnlyYf).dividends_history :=
  (calendar_pay_pair_iff_positive trivDateEnv
      [("Dividend Date", PyVal.timestampVal 100)] (some 1)
      (PyVal.timestampVal 100) 100 rfl rfl).2.2
    calendarOnlyYf rfl 1 rfl (by norm_num)

/-- Claim C8: the batch is not protected against a failure in the first row
before `ticker` is assigned. With a first row whose `ticker` cell is NaN,
`row['ticker'].strip()` raises inside the `try`, and the handler's
`print(f"[ERROR] {ticker}: {e}")` then raises `NameError` (the loop variable
was never bound), aborting `build_events_from_holdings` instead of skipping
the row. -/
theorem build_events_aborts_on_first_row_bad_ticker :
    build_events_from_holdings trivDateEnv trivYf trivFx [bad_first_row]
      = Except.error "NameError: name 'ticker' is not defined" := rfl

/-- Concrete overlap check: the calendar and the historical actions both
report ex-dividend day 10; the merged list holds it once. -/
theorem fetch_info_overlap_demo :
    collected_ex_dividends trivDateEnv overlapYf = [10, 10]
    ∧ (fetch_info_for_ticker trivDateEnv overlapYf).ex_dividend_dates = [10] := by
  constructor
  · with_unfolding_all rfl
  · with_unfolding_all rfl

end GenCal
